import Mathlib

set_option maxHeartbeats 1000000

/-
Shallow embedding of RAMCloud's ObjectManager (src/ObjectManager.cc).

The log substrate, hash index and tablet registry are external interfaces
(spec section 1); they are modelled by their interface behaviour:
  - the log is a list of decoded entries, a Log::Reference is the position
    at which the entry was appended (SideLog appends share the log's
    reference space: a SideLog is an AbstractLog over the same segment
    manager, and its segments are merged into the main log at the end of
    recovery, spec glossary);
  - Log::free records the reference in a freed list (the bytes stay
    readable until cleaning reclaims the segment);
  - the hash index is an association list from keys to references
    (HashTable candidate iteration plus the caller's full-key comparison
    amount to an exact map lookup);
  - getSegmentId(reference) is modelled as the reference itself (segment
    granularity plays no role in the claims below);
  - the tablet registry maps table ids to tablet states.
Machine integers (versions, counters) are modelled as Nat: version
arithmetic in ObjectManager is monotone counting from safeVersion >= 1 and
never wraps in the modelled operations.
-/

namespace RAMCloudOM

/-- Version sentinel: VERSION_NONEXISTENT is 0 and is never assigned to an
object (spec section 3). -/
def VERSION_NONEXISTENT : Nat := 0

/-- Log entry types used by ObjectManager.cc. -/
inductive LogEntryType where
  | LOG_ENTRY_TYPE_OBJ
  | LOG_ENTRY_TYPE_OBJTOMB
  | LOG_ENTRY_TYPE_SAFEVERSION
  | LOG_ENTRY_TYPE_INVALID
deriving DecidableEq, Repr

/-- Status codes returned to callers (Status.h subset used here). -/
inductive Status where
  | STATUS_OK
  | STATUS_UNKNOWN_TABLET
  | STATUS_OBJECT_DOESNT_EXIST
  | STATUS_OBJECT_EXISTS
  | STATUS_WRONG_VERSION
  | STATUS_RETRY
deriving DecidableEq, Repr

/-- Tablet states from TabletManager. NOT_READY stands for the further
states of the registry (state is in NORMAL, RECOVERING, ...). -/
inductive TabletState where
  | NORMAL
  | RECOVERING
  | NOT_READY
deriving DecidableEq, Repr

/-- A key is a table id together with the key bytes; equality is by table
id and byte-exact key (spec section 3). -/
structure Key where
  tableId : Nat
  keyBytes : List Nat
deriving DecidableEq, Repr

/-- RejectRules struct (RejectRules wire layout). The source field named
exists is written rulesExists here because of the Lean keyword. -/
structure RejectRules where
  givenVersion : Nat := 0
  doesntExist : Bool := false
  rulesExists : Bool := false
  versionLeGiven : Bool := false
  versionNeGiven : Bool := false
deriving DecidableEq, Repr

/-- A decoded log entry: an Object, an ObjectTombstone or an
ObjectSafeVersion record. -/
inductive LogEntry where
  | obj (key : Key) (version : Nat) (timestamp : Nat) (value : List Nat)
  | objTomb (key : Key) (objectVersion : Nat) (segmentId : Nat) (timestamp : Nat)
  | safeVersionEntry (safeVersion : Nat)
deriving DecidableEq, Repr

/-- Type tag of a decoded log entry. -/
def LogEntry.entryType : LogEntry → LogEntryType
  | .obj _ _ _ _ => .LOG_ENTRY_TYPE_OBJ
  | .objTomb _ _ _ _ => .LOG_ENTRY_TYPE_OBJTOMB
  | .safeVersionEntry _ => .LOG_ENTRY_TYPE_SAFEVERSION

/-- Key carried by a decoded log entry (SAFEVERSION entries carry none). -/
def LogEntry.entryKey : LogEntry → Option Key
  | .obj k _ _ _ => some k
  | .objTomb k _ _ _ => some k
  | .safeVersionEntry _ => none

/-- The ObjectManager state visible to the modelled operations: the log
(with its freed-reference list), the key to reference hash index, the
segment manager's safeVersion, the tablet registry, the monotonic
replaySegmentReturnCount and a counter of log.sync calls. -/
structure ObjectManagerState where
  logEntries : List LogEntry
  freedRefs : List Nat
  index : List (Key × Nat)
  safeVersion : Nat
  tablets : List (Nat × TabletState)
  replaySegmentReturnCount : Nat
  syncCount : Nat
deriving DecidableEq, Repr

/-- TabletManager::getTablet for the key's table. -/
def tabletFind (s : ObjectManagerState) (tableId : Nat) : Option TabletState :=
  (s.tablets.find? (fun p => decide (p.1 = tableId))).map (fun p => p.2)

/-- Reference the hash index currently stores for a key, if any. -/
def indexFind (s : ObjectManagerState) (key : Key) : Option Nat :=
  (s.index.find? (fun p => decide (p.1 = key))).map (fun p => p.2)

/-- Log::getEntry on a reference. -/
def getEntry (s : ObjectManagerState) (ref : Nat) : Option LogEntry :=
  s.logEntries.get? ref

/-- ObjectManager::lookup (ObjectManager.cc lines 1005-1041): follow the
index to the log and check that the decoded key matches. -/
def lookup (s : ObjectManagerState) (key : Key) : Option (Nat × LogEntry) :=
  match indexFind s key with
  | none => none
  | some ref =>
    match getEntry s ref with
    | none => none
    | some e => if e.entryKey = some key then some (ref, e) else none

/-- ObjectManager::remove (lines 1057-1073): drop the key's binding from
the hash index. -/
def removeKey (s : ObjectManagerState) (key : Key) : ObjectManagerState :=
  { s with index := s.index.filter (fun p => decide (p.1 ≠ key)) }

/-- ObjectManager::replace (lines 1093-1113): update the reference stored
for the key, inserting the binding when the key is not yet present. -/
def replaceKey (s : ObjectManagerState) (key : Key) (ref : Nat) : ObjectManagerState :=
  if (indexFind s key).isSome then
    { s with index := s.index.map (fun p => if p.1 = key then (key, ref) else p) }
  else
    { s with index := (key, ref) :: s.index }

/-- Log::free on a reference. -/
def freeRef (s : ObjectManagerState) (ref : Nat) : ObjectManagerState :=
  { s with freedRefs := s.freedRefs ++ [ref] }

/-- SegmentManager::raiseSafeVersion (spec section 4.3 raise): set
safeVersion to v when v exceeds it. -/
def raiseSafeVersion (s : ObjectManagerState) (v : Nat) : ObjectManagerState :=
  if s.safeVersion < v then { s with safeVersion := v } else s

/-- ObjectManager::rejectOperation (ObjectManager.cc lines 786-801). -/
def rejectOperation (rejectRules : RejectRules) (version : Nat) : Status :=
  if version = VERSION_NONEXISTENT then
    if rejectRules.doesntExist then .STATUS_OBJECT_DOESNT_EXIST
    else .STATUS_OK
  else if rejectRules.rulesExists then .STATUS_OBJECT_EXISTS
  else if rejectRules.versionLeGiven ∧ version ≤ rejectRules.givenVersion then
    .STATUS_WRONG_VERSION
  else if rejectRules.versionNeGiven ∧ version ≠ rejectRules.givenVersion then
    .STATUS_WRONG_VERSION
  else .STATUS_OK

/-- Reject-rule table exactly as the spec writes it (spec section 4.4,
"Reject rule evaluation"), for comparison with the source's
rejectOperation. -/
def rejectOperationSpecTable (rules : RejectRules) (version : Nat) : Status :=
  if version = VERSION_NONEXISTENT ∧ rules.doesntExist then .STATUS_OBJECT_DOESNT_EXIST
  else if version = VERSION_NONEXISTENT then .STATUS_OK
  else if version ≠ VERSION_NONEXISTENT ∧ rules.rulesExists then .STATUS_OBJECT_EXISTS
  else if rules.versionLeGiven ∧ version ≤ rules.givenVersion then .STATUS_WRONG_VERSION
  else if rules.versionNeGiven ∧ version ≠ rules.givenVersion then .STATUS_WRONG_VERSION
  else .STATUS_OK

/-- ObjectManager::removeIfTombstone (ObjectManager.cc lines 1124-1159):
given a reference taken from the hash index, remove the key's index entry
iff the entry is a TOMBSTONE whose tablet is not found or is not
RECOVERING. Removed tombstones are not freed in the log (the cleaner
reclaims them). -/
def removeIfTombstone (s : ObjectManagerState) (ref : Nat) : ObjectManagerState :=
  match getEntry s ref with
  | some (.objTomb key _ _ _) =>
    match tabletFind s key.tableId with
    | some .RECOVERING => s
    | _ => removeKey s key
  | _ => s

/-- Current version seen by writeObject (lines 152-164): the version of an
indexed OBJECT, VERSION_NONEXISTENT when the key is absent or indexed as a
TOMBSTONE. -/
def currentVersionForWrite (s : ObjectManagerState) (key : Key) : Nat :=
  match lookup s key with
  | some (_, .obj _ v _ _) => v
  | _ => VERSION_NONEXISTENT

/-- Tail of ObjectManager::writeObject after the reject-rule check (lines
176-237): version allocation (allocate bumps safeVersion), atomic append
of the new OBJECT (and the TOMBSTONE for a replaced OBJECT), index
replacement and free of the replaced OBJECT's reference. In the model the
log never reports out-of-space, so the STATUS_RETRY path is not taken. -/
def writeObjectCommit (s : ObjectManagerState) (key : Key) (value : List Nat)
    (timestamp : Nat) (currentVersion : Nat) (currentType : LogEntryType)
    (currentRef : Nat) : Status × Option Nat × ObjectManagerState :=
  let newObjectVersion :=
    if currentVersion = VERSION_NONEXISTENT then s.safeVersion
    else currentVersion + 1
  let s1 :=
    if currentVersion = VERSION_NONEXISTENT then
      { s with safeVersion := s.safeVersion + 1 }
    else s
  if currentVersion ≠ VERSION_NONEXISTENT ∧ currentType = .LOG_ENTRY_TYPE_OBJ then
    let newRef := s1.logEntries.length
    let s2 := { s1 with logEntries := s1.logEntries ++
                  [LogEntry.obj key newObjectVersion timestamp value,
                   LogEntry.objTomb key currentVersion currentRef timestamp] }
    let s3 := replaceKey s2 key newRef
    let s4 := freeRef s3 currentRef
    (.STATUS_OK, some newObjectVersion, s4)
  else
    let newRef := s1.logEntries.length
    let s2 := { s1 with logEntries := s1.logEntries ++
                  [LogEntry.obj key newObjectVersion timestamp value] }
    let s3 := replaceKey s2 key newRef
    (.STATUS_OK, some newObjectVersion, s3)

/-- Type of the entry writeObject's lookup found (lines 152-164);
LOG_ENTRY_TYPE_INVALID when the key is absent. -/
def writeCurrentType (s : ObjectManagerState) (key : Key) : LogEntryType :=
  match lookup s key with
  | some (_, e) => e.entryType
  | none => LogEntryType.LOG_ENTRY_TYPE_INVALID

/-- Reference writeObject's lookup found (0 when the key is absent; only
used when an OBJECT was found). -/
def writeCurrentRef (s : ObjectManagerState) (key : Key) : Nat :=
  match lookup s key with
  | some (r, _) => r
  | none => 0

/-- State after writeObject's handling of a found TOMBSTONE, which is
handed to removeIfTombstone (lines 157-159). -/
def writeTombstoneCleanup (s : ObjectManagerState) (key : Key) :
    ObjectManagerState :=
  match lookup s key with
  | some (r, e) =>
    if e.entryType = LogEntryType.LOG_ENTRY_TYPE_OBJTOMB then
      removeIfTombstone s r
    else s
  | none => s

/-- ObjectManager::writeObject (ObjectManager.cc lines 118-238). The
anyWrites backup-session warmup is an external concern and not modelled.
The returned Option Nat is what the call stores through a non-NULL
outVersion pointer (none when the code leaves outVersion untouched). -/
def writeObject (s : ObjectManagerState) (key : Key) (value : List Nat)
    (timestamp : Nat) (rejectRules : Option RejectRules) :
    Status × Option Nat × ObjectManagerState :=
  match tabletFind s key.tableId with
  | none => (.STATUS_UNKNOWN_TABLET, none, s)
  | some tstate =>
    if tstate ≠ TabletState.NORMAL then (.STATUS_UNKNOWN_TABLET, none, s)
    else
      match rejectRules with
      | some rules =>
        let rstatus := rejectOperation rules (currentVersionForWrite s key)
        if rstatus ≠ Status.STATUS_OK then
          (rstatus, some (currentVersionForWrite s key),
           writeTombstoneCleanup s key)
        else
          writeObjectCommit (writeTombstoneCleanup s key) key value timestamp
            (currentVersionForWrite s key) (writeCurrentType s key)
            (writeCurrentRef s key)
      | none =>
        writeObjectCommit (writeTombstoneCleanup s key) key value timestamp
          (currentVersionForWrite s key) (writeCurrentType s key)
          (writeCurrentRef s key)

/-- ObjectManager::readObject (ObjectManager.cc lines 271-309). Returns
(status, what a non-NULL outVersion receives, what a non-NULL outBuffer
receives); the state is not mutated (incrementReadCount is external
telemetry). -/
def readObject (s : ObjectManagerState) (key : Key)
    (rejectRules : Option RejectRules) : Status × Option Nat × Option (List Nat) :=
  match tabletFind s key.tableId with
  | none => (.STATUS_UNKNOWN_TABLET, none, none)
  | some tstate =>
    if tstate ≠ TabletState.NORMAL then (.STATUS_UNKNOWN_TABLET, none, none)
    else
      match lookup s key with
      | some (_, .obj _ v _ val) =>
        match rejectRules with
        | some rules =>
          let rstatus := rejectOperation rules v
          if rstatus ≠ Status.STATUS_OK then (rstatus, some v, none)
          else (.STATUS_OK, some v, some val)
        | none => (.STATUS_OK, some v, some val)
      | _ => (.STATUS_OBJECT_DOESNT_EXIST, none, none)

/-- Tail of ObjectManager::removeObject once an OBJECT passed the reject
rules (lines 365-386): append the TOMBSTONE (segmentIdOfDeletedObject is
getSegmentId of the object's reference, modelled as the reference), call
the log's synchronous sync, raise safeVersion to objectVersion + 1, free
the old OBJECT reference and remove the key from the index. -/
def removeObjectCommit (s : ObjectManagerState) (key : Key) (ref : Nat)
    (objectVersion : Nat) (timestamp : Nat) : Status × Option Nat × ObjectManagerState :=
  let s1 := { s with logEntries := s.logEntries ++
                [LogEntry.objTomb key objectVersion ref timestamp] }
  let s2 := { s1 with syncCount := s1.syncCount + 1 }
  let s3 := raiseSafeVersion s2 (objectVersion + 1)
  let s4 := freeRef s3 ref
  let s5 := removeKey s4 key
  (.STATUS_OK, some objectVersion, s5)

/-- ObjectManager::removeObject (ObjectManager.cc lines 328-387). -/
def removeObject (s : ObjectManagerState) (key : Key)
    (rejectRules : Option RejectRules) (timestamp : Nat) :
    Status × Option Nat × ObjectManagerState :=
  match tabletFind s key.tableId with
  | none => (.STATUS_UNKNOWN_TABLET, none, s)
  | some tstate =>
    if tstate ≠ TabletState.NORMAL then (.STATUS_UNKNOWN_TABLET, none, s)
    else
      match lookup s key with
      | some (ref, .obj _ v _ _) =>
        -- outVersion is stored before the reject-rule check (lines 355-356)
        match rejectRules with
        | some rules =>
          let rstatus := rejectOperation rules v
          if rstatus ≠ Status.STATUS_OK then (rstatus, some v, s)
          else removeObjectCommit s key ref v timestamp
        | none => removeObjectCommit s key ref v timestamp
      | _ =>
        -- absent or indexed as TOMBSTONE: evaluate the rules (default
        -- all-false rules when none were given) against NONEXISTENT
        (rejectOperation (rejectRules.getD {}) VERSION_NONEXISTENT, none, s)

/-- An entry of a recovery segment as the SegmentIterator yields it. The
checksumOk flag carries the outcome of the external checksum verification
(Object::computeChecksum / checkIntegrity). -/
inductive SegmentEntry where
  | obj (key : Key) (version : Nat) (timestamp : Nat) (value : List Nat)
      (checksumOk : Bool)
  | objTomb (key : Key) (objectVersion : Nat) (segmentId : Nat) (timestamp : Nat)
      (checksumOk : Bool)
  | safeVer (safeVersion : Nat) (checksumOk : Bool)
deriving DecidableEq, Repr

/-- Replace the checksum-verification outcome of a segment entry. -/
def SegmentEntry.setChecksumOk : SegmentEntry → Bool → SegmentEntry
  | .obj k v t val _, b => .obj k v t val b
  | .objTomb k ov sid t _, b => .objTomb k ov sid t b
  | .safeVer v _, b => .safeVer v b

/-- Whether replaySegment logs a bad-checksum WARNING for this entry
(lines 538-542, 611-615, 674-678): exactly when verification failed. -/
def SegmentEntry.checksumWarningLogged : SegmentEntry → Bool
  | .obj _ _ _ _ cs => !cs
  | .objTomb _ _ _ _ cs => !cs
  | .safeVer _ cs => !cs

/-- Shared tail of replaySegment's kept cases: append the entry to the
SideLog, replace the index entry with the new reference and, when the
superseded entry was an OBJECT, free its reference in the SideLog. -/
def replayInstall (s : ObjectManagerState) (e : LogEntry) (key : Key)
    (freeCurrentEntry : Bool) (currentRef : Nat) : ObjectManagerState :=
  let newRef := s.logEntries.length
  let s1 := { s with logEntries := s.logEntries ++ [e] }
  let s2 := replaceKey s1 key newRef
  if freeCurrentEntry then freeRef s2 currentRef else s2

/-- One entry of ObjectManager::replaySegment's iteration (ObjectManager.cc
lines 509-700). A failed checksum only logs a warning; the entry is
processed all the same. The safeVersionEntry arms of the inner matches are
unreachable: the index never references a SAFEVERSION entry; they mirror
the source's else-branch which decodes the current entry as an Object. -/
def replayEntry (s : ObjectManagerState) (e : SegmentEntry) : ObjectManagerState :=
  match e with
  | .obj key version timestamp value _checksumOk =>
    let (minSuccessor, freeCurrentEntry, currentRef) :=
      match lookup s key with
      | some (ref, .objTomb _ ov _ _) => (ov + 1, false, ref)
      | some (ref, .obj _ cv _ _) => (cv + 1, true, ref)
      | some (ref, .safeVersionEntry sv) => (sv + 1, true, ref)
      | none => (0, false, 0)
    if version ≥ minSuccessor then
      replayInstall s (.obj key version timestamp value) key freeCurrentEntry currentRef
    else s
  | .objTomb key objectVersion segmentId timestamp _checksumOk =>
    let (minSuccessor, freeCurrentEntry, currentRef) :=
      match lookup s key with
      | some (ref, .objTomb _ ov _ _) => (ov + 1, false, ref)
      | some (ref, .obj _ cv _ _) => (cv, true, ref)
      | some (ref, .safeVersionEntry sv) => (sv, true, ref)
      | none => (0, false, 0)
    if objectVersion ≥ minSuccessor then
      replayInstall s (.objTomb key objectVersion segmentId timestamp) key
        freeCurrentEntry currentRef
    else s
  | .safeVer v _checksumOk =>
    let s1 := { s with logEntries := s.logEntries ++ [LogEntry.safeVersionEntry v] }
    raiseSafeVersion s1 v

/-- ObjectManager::replaySegment (ObjectManager.cc lines 476-719): iterate
the segment's entries; the DelayedIncrementer guard bumps
replaySegmentReturnCount once when the call exits, on every return path.
Prefetching, the 50 KB replication yield and the metric counters are
performance concerns with no effect on the modelled state. -/
def replaySegment (s : ObjectManagerState) (seg : List SegmentEntry) :
    ObjectManagerState :=
  let s1 := seg.foldl replayEntry s
  { s1 with replaySegmentReturnCount := s1.replaySegmentReturnCount + 1 }

/-- Outcome of a relocateObject call: whether the relocator was invoked
(asked to append) and the resulting state. -/
structure RelocateResult where
  relocatorInvoked : Bool
  state : ObjectManagerState
deriving DecidableEq, Repr

/-- ObjectManager::relocateObject (ObjectManager.cc lines 872-905). The
cleaner's oldBuffer names the bytes of a log entry; buffers obtained from
lookup are exactly the referenced log bytes, so start-address equality of
the two buffers is reference equality, modelled by comparing references.
relocatorAccepts and newRef model the LogEntryRelocator: whether append
succeeds, and the new reference it yields. The none result models the
failure of assert(currentType == LOG_ENTRY_TYPE_OBJ) at line 892. -/
def relocateObject (s : ObjectManagerState) (oldRef : Nat)
    (relocatorAccepts : Bool) (newRef : Nat) : Option RelocateResult :=
  match getEntry s oldRef with
  | some (.obj key _ _ _) =>
    match tabletFind s key.tableId with
    | none =>
      -- tablet no longer on this server: drop the index entry, if any
      some ⟨false, removeKey s key⟩
    | some _ =>
      match lookup s key with
      | some (currentRef, currentEntry) =>
        if currentEntry.entryType = LogEntryType.LOG_ENTRY_TYPE_OBJ then
          if currentRef = oldRef then
            if relocatorAccepts then some ⟨true, replaceKey s key newRef⟩
            else some ⟨true, s⟩
          else some ⟨false, s⟩
        else none
      | none => some ⟨false, s⟩
  | _ => some ⟨false, s⟩

/-- Concrete key used by the scenario theorems: table 7, key bytes "k". -/
def cKey : Key := ⟨7, [107]⟩

/-- Empty ObjectManager whose table 7 tablet is RECOVERING (replay
context). -/
def recoveringState : ObjectManagerState :=
  ⟨[], [], [], 1, [(7, TabletState.RECOVERING)], 0, 0⟩

/-- Empty ObjectManager whose table 7 tablet is NORMAL. -/
def emptyNormalState : ObjectManagerState :=
  ⟨[], [], [], 1, [(7, TabletState.NORMAL)], 0, 0⟩

/-- ObjectManager holding one OBJECT (version 3) for cKey in a NORMAL
tablet, with safeVersion 4. -/
def normalObjState : ObjectManagerState :=
  ⟨[LogEntry.obj cKey 3 0 [1]], [], [(cKey, 0)], 4,
   [(7, TabletState.NORMAL)], 0, 0⟩

/-- Scenario S6's recovery segment: OBJECT v=5, OBJECT v=3, TOMBSTONE v=4,
all for cKey. -/
def c3Segment : List SegmentEntry :=
  [SegmentEntry.obj cKey 5 10 [49] true,
   SegmentEntry.obj cKey 3 10 [50] true,
   SegmentEntry.objTomb cKey 4 0 10 true]

/-- State reached by replaying OBJECT v=5 then TOMBSTONE v=5 for cKey into
an empty recovering master, after recovery finished: the SideLog was merged
into the log and the tablet moved back to NORMAL, while the recovery
TOMBSTONE is still indexed (the TombstoneReaper has not passed yet). -/
def c10ReplayedState : ObjectManagerState :=
  { replaySegment recoveringState
      [SegmentEntry.obj cKey 5 10 [1] true,
       SegmentEntry.objTomb cKey 5 0 11 true] with
    tablets := [(7, TabletState.NORMAL)] }

end RAMCloudOM

namespace RAMCloudOM

@[simp] lemma removeKey_logEntries (s : ObjectManagerState) (k : Key) :
    (removeKey s k).logEntries = s.logEntries := rfl

@[simp] lemma removeKey_freedRefs (s : ObjectManagerState) (k : Key) :
    (removeKey s k).freedRefs = s.freedRefs := rfl

@[simp] lemma removeKey_safeVersion (s : ObjectManagerState) (k : Key) :
    (removeKey s k).safeVersion = s.safeVersion := rfl

@[simp] lemma removeKey_tablets (s : ObjectManagerState) (k : Key) :
    (removeKey s k).tablets = s.tablets := rfl

@[simp] lemma removeKey_syncCount (s : ObjectManagerState) (k : Key) :
    (removeKey s k).syncCount = s.syncCount := rfl

@[simp] lemma removeKey_replayCount (s : ObjectManagerState) (k : Key) :
    (removeKey s k).replaySegmentReturnCount = s.replaySegmentReturnCount := rfl

@[simp] lemma freeRef_index (s : ObjectManagerState) (r : Nat) :
    (freeRef s r).index = s.index := rfl

@[simp] lemma freeRef_logEntries (s : ObjectManagerState) (r : Nat) :
    (freeRef s r).logEntries = s.logEntries := rfl

@[simp] lemma freeRef_freedRefs (s : ObjectManagerState) (r : Nat) :
    (freeRef s r).freedRefs = s.freedRefs ++ [r] := rfl

@[simp] lemma freeRef_safeVersion (s : ObjectManagerState) (r : Nat) :
    (freeRef s r).safeVersion = s.safeVersion := rfl

@[simp] lemma freeRef_tablets (s : ObjectManagerState) (r : Nat) :
    (freeRef s r).tablets = s.tablets := rfl

@[simp] lemma freeRef_syncCount (s : ObjectManagerState) (r : Nat) :
    (freeRef s r).syncCount = s.syncCount := rfl

@[simp] lemma freeRef_replayCount (s : ObjectManagerState) (r : Nat) :
    (freeRef s r).replaySegmentReturnCount = s.replaySegmentReturnCount := rfl

@[simp] lemma replaceKey_logEntries (s : ObjectManagerState) (k : Key) (r : Nat) :
    (replaceKey s k r).logEntries = s.logEntries := by
  unfold replaceKey; split <;> rfl

@[simp] lemma replaceKey_freedRefs (s : ObjectManagerState) (k : Key) (r : Nat) :
    (replaceKey s k r).freedRefs = s.freedRefs := by
  unfold replaceKey; split <;> rfl

@[simp] lemma replaceKey_safeVersion (s : ObjectManagerState) (k : Key) (r : Nat) :
    (replaceKey s k r).safeVersion = s.safeVersion := by
  unfold replaceKey; split <;> rfl

@[simp] lemma replaceKey_tablets (s : ObjectManagerState) (k : Key) (r : Nat) :
    (replaceKey s k r).tablets = s.tablets := by
  unfold replaceKey; split <;> rfl

@[simp] lemma replaceKey_syncCount (s : ObjectManagerState) (k : Key) (r : Nat) :
    (replaceKey s k r).syncCount = s.syncCount := by
  unfold replaceKey; split <;> rfl

@[simp] lemma replaceKey_replayCount (s : ObjectManagerState) (k : Key) (r : Nat) :
    (replaceKey s k r).replaySegmentReturnCount = s.replaySegmentReturnCount := by
  unfold replaceKey; split <;> rfl

@[simp] lemma raiseSafeVersion_logEntries (s : ObjectManagerState) (v : Nat) :
    (raiseSafeVersion s v).logEntries = s.logEntries := by
  unfold raiseSafeVersion; split <;> rfl

@[simp] lemma raiseSafeVersion_freedRefs (s : ObjectManagerState) (v : Nat) :
    (raiseSafeVersion s v).freedRefs = s.freedRefs := by
  unfold raiseSafeVersion; split <;> rfl

@[simp] lemma raiseSafeVersion_index (s : ObjectManagerState) (v : Nat) :
    (raiseSafeVersion s v).index = s.index := by
  unfold raiseSafeVersion; split <;> rfl

@[simp] lemma raiseSafeVersion_tablets (s : ObjectManagerState) (v : Nat) :
    (raiseSafeVersion s v).tablets = s.tablets := by
  unfold raiseSafeVersion; split <;> rfl

@[simp] lemma raiseSafeVersion_syncCount (s : ObjectManagerState) (v : Nat) :
    (raiseSafeVersion s v).syncCount = s.syncCount := by
  unfold raiseSafeVersion; split <;> rfl

@[simp] lemma raiseSafeVersion_replayCount (s : ObjectManagerState) (v : Nat) :
    (raiseSafeVersion s v).replaySegmentReturnCount
      = s.replaySegmentReturnCount := by
  unfold raiseSafeVersion; split <;> rfl

lemma raiseSafeVersion_safeVersion (s : ObjectManagerState) (v : Nat) :
    (raiseSafeVersion s v).safeVersion = max s.safeVersion v := by
  unfold raiseSafeVersion; split <;> simp <;> omega

lemma find_map_replace (l : List (Key × Nat)) (key : Key) (ref : Nat)
    (h : (l.find? fun p => decide (p.1 = key)).isSome = true) :
    ((l.map fun p => if p.1 = key then (key, ref) else p).find?
      fun p => decide (p.1 = key)) = some (key, ref) := by
  induction l with
  | nil => simp at h
  | cons a l ih =>
    by_cases ha : a.1 = key
    · simp only [List.map_cons, if_pos ha]
      rw [List.find?_cons_of_pos _ (by simp)]
    · rw [List.find?_cons_of_neg _ (by simp [ha])] at h
      simp only [List.map_cons, if_neg ha]
      rw [List.find?_cons_of_neg _ (by simp [ha])]
      exact ih h

lemma find_filter_ne (l : List (Key × Nat)) (key : Key) :
    ((l.filter fun p => decide (p.1 ≠ key)).find? fun p => decide (p.1 = key))
      = none := by
  induction l with
  | nil => rfl
  | cons a l ih =>
    by_cases ha : a.1 = key
    · rw [List.filter_cons, if_neg (by simp [ha])]
      exact ih
    · rw [List.filter_cons, if_pos (by simp [ha]),
        List.find?_cons_of_neg _ (by simp [ha])]
      exact ih

lemma indexFind_removeKey_self (s : ObjectManagerState) (key : Key) :
    indexFind (removeKey s key) key = none := by
  unfold indexFind removeKey
  simp only []
  rw [find_filter_ne]
  rfl

lemma indexFind_replaceKey_self (s : ObjectManagerState) (key : Key) (ref : Nat) :
    indexFind (replaceKey s key ref) key = some ref := by
  unfold replaceKey
  by_cases h : (indexFind s key).isSome
  · rw [if_pos h]
    unfold indexFind at h ⊢
    have h' : (List.find? (fun p => decide (p.1 = key)) s.index).isSome = true := by
      cases hf : List.find? (fun p => decide (p.1 = key)) s.index with
      | none => rw [hf] at h; simp at h
      | some a => rfl
    show ((s.index.map fun p => if p.1 = key then (key, ref) else p).find?
        fun p => decide (p.1 = key)).map (fun p => p.2) = some ref
    rw [find_map_replace _ _ ref h']
    rfl
  · rw [if_neg h]
    unfold indexFind
    show (((key, ref) :: s.index).find? fun p => decide (p.1 = key)).map
        (fun p => p.2) = some ref
    rw [List.find?_cons_of_pos _ (by simp)]
    rfl

lemma lookup_none_of_indexFind_none (s : ObjectManagerState) (key : Key)
    (h : indexFind s key = none) : lookup s key = none := by
  unfold lookup; rw [h]

end RAMCloudOM

namespace RAMCloudOM

/-- Claim C2: rejectOperation returns exactly per the spec's table, rules
evaluated in the stated order (object nonexistent: OBJECT_DOESNT_EXIST iff
doesntExist, else OK with no other rule firing; object existent: exists,
then versionLeGiven with version <= givenVersion, then versionNeGiven with
version differing, else OK). -/
theorem rejectOperation_matches_spec_table (rules : RejectRules) (version : Nat) :
    rejectOperation rules version = rejectOperationSpecTable rules version := by
  unfold rejectOperation rejectOperationSpecTable
  split_ifs <;> simp_all

end RAMCloudOM

namespace RAMCloudOM

lemma replayEntry_replayCount (s : ObjectManagerState) (e : SegmentEntry) :
    (replayEntry s e).replaySegmentReturnCount = s.replaySegmentReturnCount := by
  cases e <;> simp only [replayEntry] <;> (repeat' split) <;>
    simp [replayInstall]

lemma foldl_replayEntry_replayCount (seg : List SegmentEntry) :
    ∀ s : ObjectManagerState,
      (seg.foldl replayEntry s).replaySegmentReturnCount
        = s.replaySegmentReturnCount := by
  induction seg with
  | nil => intro s; rfl
  | cons e seg ih =>
    intro s
    rw [List.foldl_cons, ih, replayEntry_replayCount]

end RAMCloudOM

namespace RAMCloudOM

/-- Claim C3: starting from an empty index with tablet T RECOVERING,
replaying OBJECT((T,"k"),v=5), OBJECT((T,"k"),v=3), TOMBSTONE((T,"k"),v=4)
in order leaves the index holding exactly the v=5 OBJECT for the key: the
log received only that object (the v=3 object and v=4 tombstone were
discarded) and nothing was freed. -/
theorem replay_scenario_s6 :
    lookup (replaySegment recoveringState c3Segment) cKey
        = some (0, LogEntry.obj cKey 5 10 [49]) ∧
    (replaySegment recoveringState c3Segment).logEntries
        = [LogEntry.obj cKey 5 10 [49]] ∧
    (replaySegment recoveringState c3Segment).index = [(cKey, 0)] ∧
    (replaySegment recoveringState c3Segment).freedRefs = [] := by
  decide

/-- Claim C8 counterexample: replaySegment does not bump
replaySegmentReturnCount twice (once at entry and once at exit); a call on
an empty segment raises the counter by exactly one, not two. -/
theorem replaySegment_counter_not_bumped_twice :
    ¬ ((replaySegment recoveringState []).replaySegmentReturnCount
        = recoveringState.replaySegmentReturnCount + 2) := by
  decide

/-- Claim C8 (amended): replaySegmentReturnCount is incremented exactly
once per replaySegment call, when the call exits; the DelayedIncrementer
destructor guard runs on every return path (early returns and exceptions
included), and per-entry processing never touches the counter. -/
theorem replaySegment_counter_incremented_once_on_exit
    (s : ObjectManagerState) (seg : List SegmentEntry) :
    (replaySegment s seg).replaySegmentReturnCount
      = s.replaySegmentReturnCount + 1 := by
  unfold replaySegment
  simp only []
  rw [foldl_replayEntry_replayCount]

/-- Claim C9: a checksum-verification failure during replay only logs a
WARNING; the entry is processed identically (same minSuccessor
reconciliation, same SideLog append and index install), so the resulting
state does not depend on the checksum outcome and replaySegment neither
discards the entry for it nor surfaces an error. -/
theorem replayEntry_ignores_checksum (s : ObjectManagerState)
    (e : SegmentEntry) (b : Bool) :
    replayEntry s (e.setChecksumOk b) = replayEntry s e ∧
    (e.setChecksumOk false).checksumWarningLogged = true := by
  constructor
  · cases e <;> rfl
  · cases e <;> rfl

end RAMCloudOM

namespace RAMCloudOM

lemma indexFind_freeRef (s : ObjectManagerState) (r : Nat) (key : Key) :
    indexFind (freeRef s r) key = indexFind s key := rfl

lemma replayInstall_logEntries (s : ObjectManagerState) (e : LogEntry)
    (key : Key) (fc : Bool) (r : Nat) :
    (replayInstall s e key fc r).logEntries = s.logEntries ++ [e] := by
  unfold replayInstall; split <;> simp

lemma replayInstall_indexFind (s : ObjectManagerState) (e : LogEntry)
    (key : Key) (fc : Bool) (r : Nat) :
    indexFind (replayInstall s e key fc r) key = some s.logEntries.length := by
  unfold replayInstall
  split
  · rw [indexFind_freeRef, indexFind_replaceKey_self]
  · rw [indexFind_replaceKey_self]

lemma replayInstall_freedRefs (s : ObjectManagerState) (e : LogEntry)
    (key : Key) (fc : Bool) (r : Nat) :
    (replayInstall s e key fc r).freedRefs
      = if fc then s.freedRefs ++ [r] else s.freedRefs := by
  unfold replayInstall
  cases fc <;> simp

lemma replayEntry_obj_of_lookup (s : ObjectManagerState) (key : Key) (r : Nat)
    (cur : LogEntry) (h : lookup s key = some (r, cur))
    (v ts : Nat) (nval : List Nat) (cs : Bool) :
    replayEntry s (.obj key v ts nval cs) =
      match cur with
      | .objTomb _ ov _ _ =>
        if v ≥ ov + 1 then replayInstall s (.obj key v ts nval) key false r else s
      | .obj _ cv _ _ =>
        if v ≥ cv + 1 then replayInstall s (.obj key v ts nval) key true r else s
      | .safeVersionEntry sv =>
        if v ≥ sv + 1 then replayInstall s (.obj key v ts nval) key true r else s := by
  cases cur <;> simp only [replayEntry, h]

lemma replayEntry_tomb_of_lookup (s : ObjectManagerState) (key : Key) (r : Nat)
    (cur : LogEntry) (h : lookup s key = some (r, cur))
    (v sid ts : Nat) (cs : Bool) :
    replayEntry s (.objTomb key v sid ts cs) =
      match cur with
      | .objTomb _ ov _ _ =>
        if v ≥ ov + 1 then replayInstall s (.objTomb key v sid ts) key false r else s
      | .obj _ cv _ _ =>
        if v ≥ cv then replayInstall s (.objTomb key v sid ts) key true r else s
      | .safeVersionEntry sv =>
        if v ≥ sv then replayInstall s (.objTomb key v sid ts) key true r else s := by
  cases cur <;> simp only [replayEntry, h]

end RAMCloudOM

namespace RAMCloudOM

/-- Claim C1: during replaySegment, a replayed TOMBSTONE of object-version
v supersedes a currently indexed OBJECT whenever v is at least the
object's version (minSuccessor is the object's version), while a replayed
OBJECT of version v supersedes a currently indexed OBJECT or TOMBSTONE
only when v is at least the current entry's version plus one; in each kept
case the entry is appended to the SideLog, the index entry is replaced by
the new reference and a superseded OBJECT's reference is freed (a
superseded TOMBSTONE is not freed); otherwise the replayed entry is
discarded and the state is unchanged. -/
theorem replaySegment_minSuccessor_reconciliation
    (s : ObjectManagerState) (key : Key)
    (r v sid ts csid cts cv ct : Nat) (cs : Bool) (cval nval : List Nat) :
    (lookup s key = some (r, LogEntry.obj key cv ct cval) →
       (cv ≤ v →
          (replayEntry s (SegmentEntry.objTomb key v sid ts cs)).logEntries
              = s.logEntries ++ [LogEntry.objTomb key v sid ts] ∧
          indexFind (replayEntry s (SegmentEntry.objTomb key v sid ts cs)) key
              = some s.logEntries.length ∧
          (replayEntry s (SegmentEntry.objTomb key v sid ts cs)).freedRefs
              = s.freedRefs ++ [r]) ∧
       (v < cv → replayEntry s (SegmentEntry.objTomb key v sid ts cs) = s) ∧
       (cv + 1 ≤ v →
          (replayEntry s (SegmentEntry.obj key v ts nval cs)).logEntries
              = s.logEntries ++ [LogEntry.obj key v ts nval] ∧
          indexFind (replayEntry s (SegmentEntry.obj key v ts nval cs)) key
              = some s.logEntries.length ∧
          (replayEntry s (SegmentEntry.obj key v ts nval cs)).freedRefs
              = s.freedRefs ++ [r]) ∧
       (v < cv + 1 → replayEntry s (SegmentEntry.obj key v ts nval cs) = s)) ∧
    (lookup s key = some (r, LogEntry.objTomb key cv csid cts) →
       (cv + 1 ≤ v →
          (replayEntry s (SegmentEntry.obj key v ts nval cs)).logEntries
              = s.logEntries ++ [LogEntry.obj key v ts nval] ∧
          indexFind (replayEntry s (SegmentEntry.obj key v ts nval cs)) key
              = some s.logEntries.length ∧
          (replayEntry s (SegmentEntry.obj key v ts nval cs)).freedRefs
              = s.freedRefs) ∧
       (v < cv + 1 → replayEntry s (SegmentEntry.obj key v ts nval cs) = s)) := by
  constructor
  · intro hcur
    refine ⟨fun hle => ?_, fun hlt => ?_, fun hle => ?_, fun hlt => ?_⟩
    · rw [replayEntry_tomb_of_lookup s key r _ hcur v sid ts cs]
      dsimp only
      rw [if_pos (by omega)]
      exact ⟨replayInstall_logEntries .., replayInstall_indexFind ..,
        by rw [replayInstall_freedRefs]; simp⟩
    · rw [replayEntry_tomb_of_lookup s key r _ hcur v sid ts cs]
      dsimp only
      rw [if_neg (by omega)]
    · rw [replayEntry_obj_of_lookup s key r _ hcur v ts nval cs]
      dsimp only
      rw [if_pos (by omega)]
      exact ⟨replayInstall_logEntries .., replayInstall_indexFind ..,
        by rw [replayInstall_freedRefs]; simp⟩
    · rw [replayEntry_obj_of_lookup s key r _ hcur v ts nval cs]
      dsimp only
      rw [if_neg (by omega)]
  · intro hcur
    refine ⟨fun hle => ?_, fun hlt => ?_⟩
    · rw [replayEntry_obj_of_lookup s key r _ hcur v ts nval cs]
      dsimp only
      rw [if_pos (by omega)]
      exact ⟨replayInstall_logEntries .., replayInstall_indexFind ..,
        by rw [replayInstall_freedRefs]; simp⟩
    · rw [replayEntry_obj_of_lookup s key r _ hcur v ts nval cs]
      dsimp only
      rw [if_neg (by omega)]

end RAMCloudOM

namespace RAMCloudOM

/-- Claim C7: an entry visited by the tombstone reaper's removeIfTombstone
is removed from the index iff it is a TOMBSTONE whose tablet is either not
in the registry or not in the RECOVERING state; OBJECT entries and
tombstones of RECOVERING tablets are left untouched, and removal never
frees anything in the log (logEntries and freedRefs are unchanged in all
cases). -/
theorem removeIfTombstone_discard_policy (s : ObjectManagerState) (ref : Nat) :
    (removeIfTombstone s ref).logEntries = s.logEntries ∧
    (removeIfTombstone s ref).freedRefs = s.freedRefs ∧
    (∀ key v t val, getEntry s ref = some (LogEntry.obj key v t val) →
       removeIfTombstone s ref = s) ∧
    (∀ key ov sid t, getEntry s ref = some (LogEntry.objTomb key ov sid t) →
       (tabletFind s key.tableId = some TabletState.RECOVERING →
          removeIfTombstone s ref = s) ∧
       (tabletFind s key.tableId = none →
          removeIfTombstone s ref = removeKey s key ∧
          indexFind (removeKey s key) key = none) ∧
       (∀ tst, tabletFind s key.tableId = some tst →
          tst ≠ TabletState.RECOVERING →
          removeIfTombstone s ref = removeKey s key ∧
          indexFind (removeKey s key) key = none)) := by
  refine ⟨?_, ?_, ?_, ?_⟩
  · unfold removeIfTombstone; (repeat' split) <;> simp
  · unfold removeIfTombstone; (repeat' split) <;> simp
  · intro key v t val h
    unfold removeIfTombstone
    rw [h]
  · intro key ov sid t h
    refine ⟨?_, ?_, ?_⟩
    · intro htab
      unfold removeIfTombstone
      rw [h]
      dsimp only
      rw [htab]
    · intro htab
      refine ⟨?_, indexFind_removeKey_self s key⟩
      unfold removeIfTombstone
      rw [h]
      dsimp only
      rw [htab]
    · intro tst htab hne
      refine ⟨?_, indexFind_removeKey_self s key⟩
      unfold removeIfTombstone
      rw [h]
      dsimp only
      rw [htab]
      cases tst with
      | NORMAL => rfl
      | RECOVERING => exact absurd rfl hne
      | NOT_READY => rfl

/-- Claim C6: in relocateObject, when the object's tablet is no longer in
the registry the key is removed from the index and the relocator is never
invoked; otherwise (given that the key's index entry, if any, is an OBJECT
so that the assertion holds) the entry is live iff the index's current
reference is the relocated one, only then is the relocator asked to
append, the index reference is replaced by the relocator's new reference
on success and is left unchanged when the relocator rejects the append. -/
theorem relocateObject_liveness (s : ObjectManagerState)
    (oldRef newRef : Nat) (acc : Bool) (key : Key) (v t : Nat)
    (val : List Nat)
    (hold : getEntry s oldRef = some (LogEntry.obj key v t val)) :
    (tabletFind s key.tableId = none →
       relocateObject s oldRef acc newRef = some ⟨false, removeKey s key⟩ ∧
       indexFind (removeKey s key) key = none) ∧
    ((tabletFind s key.tableId).isSome = true →
       (lookup s key = none →
          relocateObject s oldRef acc newRef = some ⟨false, s⟩) ∧
       (∀ r e, lookup s key = some (r, e) →
          e.entryType = LogEntryType.LOG_ENTRY_TYPE_OBJ →
          (r ≠ oldRef → relocateObject s oldRef acc newRef = some ⟨false, s⟩) ∧
          (r = oldRef → acc = true →
             relocateObject s oldRef acc newRef
                 = some ⟨true, replaceKey s key newRef⟩ ∧
             indexFind (replaceKey s key newRef) key = some newRef) ∧
          (r = oldRef → acc = false →
             relocateObject s oldRef acc newRef = some ⟨true, s⟩))) := by
  constructor
  · intro htab
    refine ⟨?_, indexFind_removeKey_self s key⟩
    unfold relocateObject
    rw [hold]
    dsimp only
    rw [htab]
  · intro hsome
    obtain ⟨tst, htab⟩ := Option.isSome_iff_exists.mp hsome
    constructor
    · intro hl
      unfold relocateObject
      rw [hold]
      dsimp only
      rw [htab]
      dsimp only
      rw [hl]
    · intro r e hl htype
      refine ⟨?_, ?_, ?_⟩
      · intro hne
        unfold relocateObject
        rw [hold]
        dsimp only
        rw [htab]
        dsimp only
        rw [hl]
        dsimp only
        rw [if_pos htype, if_neg hne]
      · intro heq hacc
        refine ⟨?_, indexFind_replaceKey_self s key newRef⟩
        unfold relocateObject
        rw [hold]
        dsimp only
        rw [htab]
        dsimp only
        rw [hl]
        dsimp only
        rw [if_pos htype, if_pos heq, hacc]
        rfl
      · intro heq hacc
        unfold relocateObject
        rw [hold]
        dsimp only
        rw [htab]
        dsimp only
        rw [hl]
        dsimp only
        rw [if_pos htype, if_pos heq, hacc]
        rfl

/-- Claim C6 witness: a live OBJECT of a registered tablet is relocated
and the index updated to the relocator's new reference. -/
theorem relocateObject_liveness_witness :
    getEntry normalObjState 0 = some (LogEntry.obj cKey 3 0 [1]) ∧
    (relocateObject normalObjState 0 true 3
        = some ⟨true, replaceKey normalObjState cKey 3⟩ ∧
     indexFind (replaceKey normalObjState cKey 3) cKey = some 3) := by
  refine ⟨by decide, ?_⟩
  exact (((relocateObject_liveness normalObjState 0 3 true cKey 3 0 [1]
      (by decide)).2 (by decide)).2 0 (LogEntry.obj cKey 3 0 [1])
      (by decide) (by decide)).2.1 rfl rfl

/-- Claim C10 counterexample: after replaying OBJECT v=5 then TOMBSTONE
v=5 for the same key into a recovering master and finishing recovery
(SideLog merged, tablet back to NORMAL, recovery tombstone still indexed),
the cleaner's relocateObject call on the dead replayed object finds the
indexed TOMBSTONE and the assertion currentType == LOG_ENTRY_TYPE_OBJ
fails (modelled as the none result). -/
theorem relocateObject_assert_fails_on_recovery_tombstone :
    getEntry c10ReplayedState 0 = some (LogEntry.obj cKey 5 10 [1]) ∧
    (tabletFind c10ReplayedState cKey.tableId).isSome = true ∧
    lookup c10ReplayedState cKey = some (1, LogEntry.objTomb cKey 5 0 11) ∧
    relocateObject c10ReplayedState 0 true 5 = none := by
  decide

/-- Claim C10 (amended): the assertion in relocateObject can fail; it
fails exactly when the relocated entry is an OBJECT whose tablet is still
registered and whose key's index lookup yields an entry that is not an
OBJECT (a recovery TOMBSTONE installed by replaySegment); whenever the
key's lookup finds nothing or finds an OBJECT, the assertion holds. -/
theorem relocateObject_assert_failure_characterization
    (s : ObjectManagerState) (oldRef newRef : Nat) (acc : Bool) :
    relocateObject s oldRef acc newRef = none ↔
      ∃ key v t val, getEntry s oldRef = some (LogEntry.obj key v t val) ∧
        (tabletFind s key.tableId).isSome = true ∧
        ∃ r e, lookup s key = some (r, e) ∧
          e.entryType ≠ LogEntryType.LOG_ENTRY_TYPE_OBJ := by
  constructor
  · intro h
    unfold relocateObject at h
    cases hg : getEntry s oldRef with
    | none => rw [hg] at h; exact absurd h (by simp)
    | some e =>
      rw [hg] at h
      cases e with
      | obj key v t val =>
        dsimp only at h
        cases htab : tabletFind s key.tableId with
        | none => rw [htab] at h; exact absurd h (by simp)
        | some tst =>
          rw [htab] at h
          dsimp only at h
          cases hl : lookup s key with
          | none => rw [hl] at h; exact absurd h (by simp)
          | some pe =>
            obtain ⟨r, e'⟩ := pe
            rw [hl] at h
            dsimp only at h
            by_cases ht : e'.entryType = LogEntryType.LOG_ENTRY_TYPE_OBJ
            · rw [if_pos ht] at h
              by_cases hr : r = oldRef
              · rw [if_pos hr] at h
                cases acc <;> simp at h
              · rw [if_neg hr] at h
                exact absurd h (by simp)
            · exact ⟨key, v, t, val, rfl, by rw [htab]; rfl, r, e', hl, ht⟩
      | objTomb key ov sid t => dsimp only at h; exact absurd h (by simp)
      | safeVersionEntry sv => dsimp only at h; exact absurd h (by simp)
  · rintro ⟨key, v, t, val, hg, hsome, r, e', hl, ht⟩
    obtain ⟨tst, htab⟩ := Option.isSome_iff_exists.mp hsome
    unfold relocateObject
    rw [hg]
    dsimp only
    rw [htab]
    dsimp only
    rw [hl]
    dsimp only
    rw [if_neg ht]

end RAMCloudOM

namespace RAMCloudOM

lemma removeIfTombstone_safeVersion (s : ObjectManagerState) (ref : Nat) :
    (removeIfTombstone s ref).safeVersion = s.safeVersion := by
  unfold removeIfTombstone; (repeat' split) <;> simp

lemma writeTombstoneCleanup_safeVersion (s : ObjectManagerState) (key : Key) :
    (writeTombstoneCleanup s key).safeVersion = s.safeVersion := by
  unfold writeTombstoneCleanup
  (repeat' split) <;> simp [removeIfTombstone_safeVersion]

lemma writeObjectCommit_outVersion (s : ObjectManagerState) (key : Key)
    (value : List Nat) (ts cv : Nat) (ctype : LogEntryType) (cref : Nat) :
    (writeObjectCommit s key value ts cv ctype cref).2.1
      = some (if cv = VERSION_NONEXISTENT then s.safeVersion else cv + 1) := by
  unfold writeObjectCommit
  dsimp only
  split <;> rfl

lemma writeObject_ok_outVersion (s : ObjectManagerState) (key : Key)
    (value : List Nat) (ts : Nat) (rules : Option RejectRules)
    (hok : (writeObject s key value ts rules).1 = Status.STATUS_OK) :
    (writeObject s key value ts rules).2.1
      = some (if currentVersionForWrite s key = VERSION_NONEXISTENT
              then s.safeVersion else currentVersionForWrite s key + 1) := by
  unfold writeObject at hok ⊢
  cases htf : tabletFind s key.tableId with
  | none =>
    rw [htf] at hok
    simp at hok
  | some tst =>
    rw [htf] at hok
    dsimp only at hok ⊢
    by_cases hn : tst = TabletState.NORMAL
    · rw [if_neg (by simp [hn])] at hok ⊢
      cases rules with
      | none =>
        rw [writeObjectCommit_outVersion, writeTombstoneCleanup_safeVersion]
      | some rl =>
        dsimp only at hok ⊢
        by_cases hr :
            rejectOperation rl (currentVersionForWrite s key) ≠ Status.STATUS_OK
        · rw [if_pos hr] at hok
          exact absurd hok (by simpa using hr)
        · rw [if_neg hr]
          rw [writeObjectCommit_outVersion, writeTombstoneCleanup_safeVersion]
    · rw [if_pos hn] at hok
      simp at hok

end RAMCloudOM

namespace RAMCloudOM

/-- Claim C5: in a successful writeObject the new version is drawn from
the version allocator (the current safeVersion) when the key was absent or
indexed as a TOMBSTONE (currentVersion is VERSION_NONEXISTENT) and is
currentVersion + 1 otherwise; the new version is strictly greater than the
current version (the assertion never fails, given the safeVersion
invariant safeVersion >= 1), and it is what the call stores through a
non-NULL outVersion. -/
theorem writeObject_new_version (s : ObjectManagerState) (key : Key)
    (value : List Nat) (ts : Nat) (rules : Option RejectRules)
    (hsafe : 1 ≤ s.safeVersion)
    (hok : (writeObject s key value ts rules).1 = Status.STATUS_OK) :
    (writeObject s key value ts rules).2.1
        = some (if currentVersionForWrite s key = VERSION_NONEXISTENT
                then s.safeVersion else currentVersionForWrite s key + 1) ∧
    ∀ w, (writeObject s key value ts rules).2.1 = some w →
      currentVersionForWrite s key < w := by
  have h1 := writeObject_ok_outVersion s key value ts rules hok
  refine ⟨h1, ?_⟩
  intro w hw
  rw [h1] at hw
  have hw' := Option.some.inj hw
  by_cases hcv : currentVersionForWrite s key = VERSION_NONEXISTENT
  · rw [if_pos hcv] at hw'
    rw [hcv]
    unfold VERSION_NONEXISTENT
    omega
  · rw [if_neg hcv] at hw'
    omega

/-- Claim C5 witness: writing a fresh key into an empty NORMAL tablet
allocates version safeVersion = 1 and stores it through outVersion. -/
theorem writeObject_new_version_witness :
    (writeObject emptyNormalState cKey [1] 0 none).2.1
        = some (if currentVersionForWrite emptyNormalState cKey
                    = VERSION_NONEXISTENT
                then emptyNormalState.safeVersion
                else currentVersionForWrite emptyNormalState cKey + 1) ∧
    ∀ w, (writeObject emptyNormalState cKey [1] 0 none).2.1 = some w →
      currentVersionForWrite emptyNormalState cKey < w :=
  writeObject_new_version emptyNormalState cKey [1] 0 none (by decide)
    (by decide)

end RAMCloudOM

namespace RAMCloudOM

lemma removeObject_ok_commit (s : ObjectManagerState) (key : Key)
    (r v t ts : Nat) (val : List Nat) (rules : Option RejectRules)
    (htab : tabletFind s key.tableId = some TabletState.NORMAL)
    (hcur : lookup s key = some (r, LogEntry.obj key v t val))
    (hok : (removeObject s key rules ts).1 = Status.STATUS_OK) :
    removeObject s key rules ts = removeObjectCommit s key r v ts := by
  unfold removeObject at hok ⊢
  rw [htab] at hok ⊢
  dsimp only at hok ⊢
  rw [if_neg (by simp)] at hok ⊢
  rw [hcur] at hok ⊢
  dsimp only at hok ⊢
  cases rules with
  | none => rfl
  | some rl =>
    dsimp only at hok ⊢
    by_cases hr : rejectOperation rl v ≠ Status.STATUS_OK
    · rw [if_pos hr] at hok
      exact absurd hok (by simpa using hr)
    · rw [if_neg hr]

lemma removeObjectCommit_fields (s : ObjectManagerState) (key : Key)
    (r v ts : Nat) :
    (removeObjectCommit s key r v ts).1 = Status.STATUS_OK ∧
    (removeObjectCommit s key r v ts).2.1 = some v ∧
    (removeObjectCommit s key r v ts).2.2.logEntries
        = s.logEntries ++ [LogEntry.objTomb key v r ts] ∧
    (removeObjectCommit s key r v ts).2.2.syncCount = s.syncCount + 1 ∧
    (removeObjectCommit s key r v ts).2.2.safeVersion
        = max s.safeVersion (v + 1) ∧
    (removeObjectCommit s key r v ts).2.2.freedRefs = s.freedRefs ++ [r] ∧
    (removeObjectCommit s key r v ts).2.2.tablets = s.tablets ∧
    indexFind (removeObjectCommit s key r v ts).2.2 key = none := by
  unfold removeObjectCommit
  dsimp only
  refine ⟨rfl, rfl, ?_, ?_, ?_, ?_, ?_, ?_⟩ <;>
    simp [raiseSafeVersion_safeVersion, indexFind_removeKey_self]

end RAMCloudOM

namespace RAMCloudOM

/-- Claim C4: when a key currently indexed as an OBJECT in a NORMAL tablet
is removed and removeObject returns OK, the call appended a tombstone,
called the log's synchronous sync, raised safeVersion to the object's
version + 1 (raise keeps the larger value), freed the old object
reference and removed the key from the index; consequently a subsequent
readObject returns OBJECT_DOESNT_EXIST and any subsequent successful
writeObject of that key stores through outVersion a version strictly
greater than the removed object's version. -/
theorem removeObject_ok_postconditions (s : ObjectManagerState) (key : Key)
    (r v t ts : Nat) (val : List Nat) (rules : Option RejectRules)
    (htab : tabletFind s key.tableId = some TabletState.NORMAL)
    (hcur : lookup s key = some (r, LogEntry.obj key v t val))
    (hok : (removeObject s key rules ts).1 = Status.STATUS_OK) :
    (removeObject s key rules ts).2.1 = some v ∧
    (removeObject s key rules ts).2.2.logEntries
        = s.logEntries ++ [LogEntry.objTomb key v r ts] ∧
    (removeObject s key rules ts).2.2.syncCount = s.syncCount + 1 ∧
    (removeObject s key rules ts).2.2.safeVersion
        = max s.safeVersion (v + 1) ∧
    (removeObject s key rules ts).2.2.freedRefs = s.freedRefs ++ [r] ∧
    indexFind (removeObject s key rules ts).2.2 key = none ∧
    (readObject (removeObject s key rules ts).2.2 key none).1
        = Status.STATUS_OBJECT_DOESNT_EXIST ∧
    (∀ value2 ts2 rules2,
       (writeObject (removeObject s key rules ts).2.2 key value2 ts2
           rules2).1 = Status.STATUS_OK →
       ∃ w, (writeObject (removeObject s key rules ts).2.2 key value2 ts2
               rules2).2.1 = some w ∧ v < w) := by
  have hsh := removeObject_ok_commit s key r v t ts val rules htab hcur hok
  rw [hsh]
  obtain ⟨-, h21, hlog, hsync, hsafe, hfree, htabs, hidx⟩ :=
    removeObjectCommit_fields s key r v ts
  have htf2 : tabletFind (removeObjectCommit s key r v ts).2.2 key.tableId
      = some TabletState.NORMAL := by
    unfold tabletFind
    rw [htabs]
    exact htab
  refine ⟨h21, hlog, hsync, hsafe, hfree, hidx, ?_, ?_⟩
  · unfold readObject
    rw [htf2]
    dsimp only
    rw [if_neg (by simp)]
    rw [lookup_none_of_indexFind_none _ _ hidx]
  · intro value2 ts2 rules2 hok2
    have h2 := writeObject_ok_outVersion _ key value2 ts2 rules2 hok2
    have hcv : currentVersionForWrite (removeObjectCommit s key r v ts).2.2 key
        = VERSION_NONEXISTENT := by
      unfold currentVersionForWrite
      rw [lookup_none_of_indexFind_none _ _ hidx]
    rw [hcv, if_pos rfl] at h2
    refine ⟨(removeObjectCommit s key r v ts).2.2.safeVersion, h2, ?_⟩
    rw [hsafe]
    omega

/-- Claim C4 witness: removing the version-3 object of a NORMAL tablet
succeeds, after which the key is gone from the index and a read reports
OBJECT_DOESNT_EXIST. -/
theorem removeObject_ok_postconditions_witness :
    indexFind (removeObject normalObjState cKey none 9).2.2 cKey = none ∧
    (readObject (removeObject normalObjState cKey none 9).2.2 cKey none).1
        = Status.STATUS_OBJECT_DOESNT_EXIST :=
  ⟨(removeObject_ok_postconditions normalObjState cKey 0 3 0 9 [1] none
      (by decide) (by decide) (by decide)).2.2.2.2.2.1,
   (removeObject_ok_postconditions normalObjState cKey 0 3 0 9 [1] none
      (by decide) (by decide) (by decide)).2.2.2.2.2.2.1⟩

end RAMCloudOM
